import Mathlib

/-
Verification of the video ingestion and normalization pipeline:
a shallow embedding of the core source functions (handlerUploadVideo,
getVideoAspectRatio, processVideoForFastStart, dbVideoToSignedVideo)
together with proofs of the specified properties.

External collaborators (identity verifier, metadata store, the remux and
probe subprocesses, the object store) are modelled as oracle inputs: each
fallible external step is a field of an environment record, and the
embedded functions are pure functions of that environment. Machine floats
of the classifier are modelled by exact rationals; the decimal literals of
the source (1.7, 1.85, 0.52, 0.6) are carried over exactly.
-/

set_option autoImplicit false

namespace Tubely

/-- Modelled from the spec: the video record of the internal database
package (the package itself is not among the pipeline source files).
Per the spec, the VideoRecord holds an optional composite location string
(videoURL) plus ownership and descriptive fields; the concrete field list
beyond videoURL and userID is illustrative. The Go zero value
"database.Video{}" is `Video.zero` below. -/
structure Video where
  id : String
  createdAt : String
  updatedAt : String
  thumbnailURL : Option String
  videoURL : Option String
  title : String
  description : String
  userID : String
deriving DecidableEq, Repr

/-- The Go zero value of the record: every field at its zero value. -/
def Video.zero : Video :=
  { id := ""
    createdAt := ""
    updatedAt := ""
    thumbnailURL := none
    videoURL := none
    title := ""
    description := ""
    userID := "" }

/-- The parts of apiConfig the embedded handler reads. -/
structure ApiConfig where
  s3Bucket : String
  s3Region : String
deriving DecidableEq, Repr

/-- Split a character list at the first comma: returns the part before the
first comma and, when a comma occurs, the whole remainder after it. This is
the character-level core of Go strings.SplitN(s, ",", 2). -/
def splitFirstSep : List Char → List Char × Option (List Char)
  | [] => ([], none)
  | c :: rest =>
    if c = ',' then ([], some rest)
    else (c :: (splitFirstSep rest).1, (splitFirstSep rest).2)

/-- Go strings.SplitN(s, ",", 2): one piece when s has no comma, otherwise
the part before the first comma and the untouched remainder (further commas
stay inside the second piece). -/
def splitN2 (s : String) : List String :=
  match splitFirstSep s.data with
  | (a, none) => [⟨a⟩]
  | (a, some b) => [⟨a⟩, ⟨b⟩]

/-- time.Hour, the fixed presign expiry passed to the signing call. -/
def expireTimeSeconds : Nat := 3600

/-- Embedding of dbVideoToSignedVideo (s3_service.go). The presign
facility (generatePresignedURL, an AWS call) is the oracle `sign`; the
second component of the result records every call made to it, so that
"no store call made" is observable. Mirrors the Go control flow: nil
videoURL passes the record through; a SplitN that does not yield exactly
two pieces returns the zero record and an error; otherwise the bucket and
key are signed and the URL replaces the videoURL field. -/
def dbVideoToSignedVideo (sign : String → String → Nat → Except String String)
    (video : Video) : (Video × Option String) × List (String × String × Nat) :=
  match video.videoURL with
  | none => ((video, none), [])
  | some url =>
    match splitN2 url with
    | [bucket, key] =>
      match sign bucket key expireTimeSeconds with
      | .error e => ((Video.zero, some e), [(bucket, key, expireTimeSeconds)])
      | .ok presignedURL =>
        (({ video with videoURL := some presignedURL }, none),
          [(bucket, key, expireTimeSeconds)])
    | _ => ((Video.zero, some ("invalid videoURL: " ++ url)), [])

/-- One stream of the probe output (FFProbeStream in the source). -/
structure FFProbeStream where
  width : Int
  height : Int
deriving DecidableEq, Repr

/-- The probe output (FFProbeOutput in the source). -/
structure FFProbeOutput where
  streams : List FFProbeStream
deriving DecidableEq, Repr

/-- Oracle for the external probe subprocess plus json decoding:
the tool may fail to run, its output may fail to unmarshal, or it yields a
decoded FFProbeOutput. -/
inductive ProbeResult where
  | toolErr (e : String) : ProbeResult
  | badJson : ProbeResult
  | output (o : FFProbeOutput) : ProbeResult
deriving DecidableEq, Repr

/-- Result of getVideoAspectRatio as Go executes it: a returned value, a
returned error, or a runtime crash (Go panics on out-of-range slice
indexing; the source reads Streams[0] unconditionally). -/
inductive AspectEval where
  | ok (s : String) : AspectEval
  | err (e : String) : AspectEval
  | crash (msg : String) : AspectEval
deriving DecidableEq, Repr

/-- The ratio bucketing of getVideoAspectRatio lines 305-313: the float64 source literals 1.7, 1.85, 0.52, 0.6 carried over as exact rationals. -/
def classifyRatio (ratio : ℚ) : String :=
  if 17/10 < ratio ∧ ratio < 37/20 then "16:9"
  else if 13/25 < ratio ∧ ratio < 3/5 then "9:16"
  else "other"

/-- Embedding of getVideoAspectRatio. The ffprobe invocation and json
unmarshal are the oracle `probe`; the rest follows the source: read
Streams[0] (a panic when the streams slice is empty), form
width/height as a 64-bit float (modelled exactly in ℚ), bucket it. -/
def getVideoAspectRatio (probe : ProbeResult) : AspectEval :=
  match probe with
  | .toolErr e => .err e
  | .badJson => .err "error unmarshalling json data"
  | .output out =>
    match out.streams with
    | [] => .crash "runtime error: index out of range [0] with length 0"
    | s :: _ =>
      let ratio : ℚ := (s.width : ℚ) / (s.height : ℚ)
      .ok (classifyRatio ratio)

/-- Oracle for the external remux (ffmpeg) subprocess: it either exits
zero, or exits nonzero with an exit-status text and a captured stderr. -/
inductive FfmpegRun where
  | ok : FfmpegRun
  | fail (errText stderrText : String) : FfmpegRun
deriving DecidableEq, Repr

/-- Embedding of processVideoForFastStart. The output path is the input
path with ".processing" appended; on a nonzero tool exit the returned
error is fmt.Errorf("ffmpeg error: %v, details: %s", err, stderr). -/
def processVideoForFastStart (filePath : String) (tool : FfmpegRun) :
    Except String String :=
  match tool with
  | .ok => .ok (filePath ++ ".processing")
  | .fail e s => .error (("ffmpeg error: " ++ e ++ ", details: ") ++ s)

/-- The orientation-to-key-path mapping of handlerUploadVideo lines
215-222 (switch on the aspect ratio string). -/
def aspectRatioDir (aspectRatio : String) : String :=
  if aspectRatio = "16:9" then "landscape/"
  else if aspectRatio = "9:16" then "portrait/"
  else "other/"

/-- An HTTP response as the handler emits it: respondWithError carries a
status, a message and the underlying error text when one is attached;
respondWithJSON is status 200. -/
structure Response where
  status : Nat
  message : String
  errDetail : Option String
deriving DecidableEq, Repr

/-- How the handler terminates: a written response, or a Go panic
unwinding through it (deferred cleanups still run on a panic). -/
inductive Outcome where
  | response (r : Response) : Outcome
  | panicked (msg : String) : Outcome
deriving DecidableEq, Repr

/-- Oracle environment of one upload request: one field per external or
fallible step of handlerUploadVideo, in source order. -/
structure UploadEnv where
  videoIDValid : Bool
  tokenOk : Bool
  jwtValid : Bool
  userID : String
  dbVideo : Option Video
  bodyTooLarge : Bool
  formParseOk : Bool
  formFileOk : Bool
  parsedMediaType : Option String
  createTempOk : Bool
  tempName : String
  copyOk : Bool
  seekOk : Bool
  randomHex : String
  ffmpeg : FfmpegRun
  openProcessedOk : Bool
  probe : ProbeResult
  putObjectOk : Bool
deriving Repr

/-- Observable result of one handler run: the response (or panic), the
local files still on disk when the handler has returned (every created
file is tracked, every deferred removal applied, in defer order), the
objects written to the store, and the record written to the metadata
store. -/
structure HandlerResult where
  outcome : Outcome
  disk : List String
  store : List (String × String)
  dbWrite : Option Video
deriving DecidableEq, Repr

/-- Embedding of handlerUploadVideo (the fast-start upload handler).
Each early return carries the disk state after the deferred cleanups
registered so far have run: after os.CreateTemp succeeds the deferred
close-and-remove of the temp file is registered; after
processVideoForFastStart succeeds the deferred removal of the processed
artifact is registered (defers run last-in-first-out, so the processed
file is erased first, then the temp file). The remux tool is modelled as
creating its output file only when it succeeds. -/
def handlerUploadVideo (cfg : ApiConfig) (env : UploadEnv) : HandlerResult :=
  if env.videoIDValid = false then
    ⟨.response ⟨400, "Invalid ID", some "uuid parse error"⟩, [], [], none⟩
  else if env.tokenOk = false then
    ⟨.response ⟨401, "Could not find JWT", some "bearer token error"⟩, [], [], none⟩
  else if env.jwtValid = false then
    ⟨.response ⟨401, "Could not validate JWT", some "jwt validation error"⟩, [], [], none⟩
  else
    match env.dbVideo with
    | none => ⟨.response ⟨404, "Video not found", some "db get error"⟩, [], [], none⟩
    | some video =>
      if video.userID ≠ env.userID then
        ⟨.response ⟨401, "You cannot upload a video for this user", none⟩, [], [], none⟩
      else if env.bodyTooLarge = true then
        ⟨.response ⟨413, "File is too large", some "http: request body too large"⟩, [], [], none⟩
      else if env.formParseOk = false then
        ⟨.response ⟨400, "Unable to parse form", some "multipart parse error"⟩, [], [], none⟩
      else if env.formFileOk = false then
        ⟨.response ⟨400, "Unable to parse multipart form file", some "form file error"⟩, [], [], none⟩
      else
        match env.parsedMediaType with
        | none =>
          ⟨.response ⟨500, "Error processing extension", some "mime parse error"⟩, [], [], none⟩
        | some mediaType =>
          if mediaType ≠ "video/mp4" then
            ⟨.response ⟨400, "Invalid video type: " ++ mediaType, none⟩, [], [], none⟩
          else if env.createTempOk = false then
            ⟨.response ⟨500, "Error creating temp file", some "createtemp error"⟩, [], [], none⟩
          else if env.copyOk = false then
            ⟨.response ⟨500, "Error copying video data to file", some "io copy error"⟩,
              [env.tempName].erase env.tempName, [], none⟩
          else if env.seekOk = false then
            ⟨.response ⟨500, "Error resetting temp file pointer", some "seek error"⟩,
              [env.tempName].erase env.tempName, [], none⟩
          else
            match processVideoForFastStart env.tempName env.ffmpeg with
            | .error e =>
              ⟨.response ⟨500, "Error processing video for fast start", some e⟩,
                [env.tempName].erase env.tempName, [], none⟩
            | .ok processedFilePath =>
              if env.openProcessedOk = false then
                ⟨.response ⟨500, "Error opening processed file", some "open error"⟩,
                  ((processedFilePath :: [env.tempName]).erase processedFilePath).erase env.tempName,
                  [], none⟩
              else
                match getVideoAspectRatio env.probe with
                | .crash msg =>
                  ⟨.panicked msg,
                    ((processedFilePath :: [env.tempName]).erase processedFilePath).erase env.tempName,
                    [], none⟩
                | .err e =>
                  ⟨.response ⟨500, "Error getting video aspect ratio", some e⟩,
                    ((processedFilePath :: [env.tempName]).erase processedFilePath).erase env.tempName,
                    [], none⟩
                | .ok aspectRatio =>
                  if env.putObjectOk = false then
                    ⟨.response ⟨500, "Error uploading video to S3", some "s3 put error"⟩,
                      ((processedFilePath :: [env.tempName]).erase processedFilePath).erase env.tempName,
                      [], none⟩
                  else
                    let fileKey := aspectRatioDir aspectRatio ++ env.randomHex ++ ".mp4"
                    let videoURL := "https://" ++ cfg.s3Bucket ++ ".s3." ++ cfg.s3Region ++ ".amazonaws.com/" ++ fileKey
                    ⟨.response ⟨200, "OK", none⟩,
                      ((processedFilePath :: [env.tempName]).erase processedFilePath).erase env.tempName,
                      [(cfg.s3Bucket, fileKey)],
                      some { video with videoURL := some videoURL }⟩

/-- The request is authenticated and authorized: valid id, bearer token
present, JWT valid, the video exists and its owner matches the caller. -/
def UploadEnv.authOk (env : UploadEnv) (v : Video) : Prop :=
  env.videoIDValid = true ∧ env.tokenOk = true ∧ env.jwtValid = true ∧
    env.dbVideo = some v ∧ v.userID = env.userID

/-- The intake and staging steps all succeed: body within the ceiling,
multipart form and file parse, media type is video/mp4, temp file created,
copy and seek succeed. -/
def UploadEnv.stagedOk (env : UploadEnv) : Prop :=
  env.bodyTooLarge = false ∧ env.formParseOk = true ∧ env.formFileOk = true ∧
    env.parsedMediaType = some "video/mp4" ∧ env.createTempOk = true ∧
    env.copyOk = true ∧ env.seekOk = true

/-- A concrete owned video record with no upload yet. -/
def sampleVideo : Video :=
  { id := "vid-1"
    createdAt := "2024-01-01"
    updatedAt := "2024-01-02"
    thumbnailURL := none
    videoURL := none
    title := "My Title"
    description := "A description"
    userID := "user-1" }

/-- A concrete configuration. -/
def sampleCfg : ApiConfig := { s3Bucket := "tubely", s3Region := "us-east-1" }

/-- A concrete all-success environment for a 1920x1080 upload. -/
def sampleEnv : UploadEnv :=
  { videoIDValid := true
    tokenOk := true
    jwtValid := true
    userID := "user-1"
    dbVideo := some sampleVideo
    bodyTooLarge := false
    formParseOk := true
    formFileOk := true
    parsedMediaType := some "video/mp4"
    createTempOk := true
    tempName := "/tmp/tubely-upload.mp4"
    copyOk := true
    seekOk := true
    randomHex := "ab"
    ffmpeg := .ok
    openProcessedOk := true
    probe := .output ⟨[⟨1920, 1080⟩]⟩
    putObjectOk := true }

/-- The URL the handler persists for sampleCfg and sampleEnv. -/
def sampleUploadedURL : String :=
  "https://tubely.s3.us-east-1.amazonaws.com/landscape/ab.mp4"

/- ------------------------------------------------------------------ -/
/- Helper lemmas                                                       -/
/- ------------------------------------------------------------------ -/

theorem strExt : ∀ {a b : String}, a.data = b.data → a = b
  | ⟨_⟩, ⟨_⟩, rfl => rfl

theorem strDataAppend (a b : String) : (a ++ b).data = a.data ++ b.data := by
  cases a; cases b; rfl

theorem strAppendEmpty (a : String) : a ++ "" = a := by
  apply strExt; simp [strDataAppend]

theorem strAppendAssoc (a b c : String) : a ++ b ++ c = a ++ (b ++ c) := by
  apply strExt; simp [strDataAppend]

theorem splitFirstSep_not_mem (l : List Char) (h : ',' ∉ l) :
    splitFirstSep l = (l, none) := by
  induction l with
  | nil => rfl
  | cons c cs ih =>
    have hc : ¬ c = ',' := by
      intro hc; subst hc; exact h (List.mem_cons_self _ _)
    have ih2 := ih fun hm => h (List.mem_cons_of_mem c hm)
    simp [splitFirstSep, hc, ih2]

theorem splitFirstSep_append (b k : List Char) (hb : ',' ∉ b) :
    splitFirstSep (b ++ ',' :: k) = (b, some k) := by
  induction b with
  | nil => simp [splitFirstSep]
  | cons c cs ih =>
    have hc : ¬ c = ',' := by
      intro hc; subst hc; exact hb (List.mem_cons_self _ _)
    have ih2 := ih fun hm => hb (List.mem_cons_of_mem c hm)
    simp [splitFirstSep, hc, ih2]

theorem splitN2_comma (b k : String) (hb : ',' ∉ b.data) :
    splitN2 (b ++ "," ++ k) = [b, k] := by
  have hcomma : ("," : String).data = [','] := rfl
  have h1 : (b ++ "," ++ k).data = b.data ++ ',' :: k.data := by
    simp [strDataAppend, hcomma]
  unfold splitN2
  rw [h1, splitFirstSep_append b.data k.data hb]

theorem splitN2_no_comma (s : String) (h : ',' ∉ s.data) : splitN2 s = [s] := by
  unfold splitN2
  rw [splitFirstSep_not_mem s.data h]

/- ------------------------------------------------------------------ -/
/- Claim theorems                                                      -/
/- ------------------------------------------------------------------ -/

/-- Claim C2 (code_bug evidence): on a probe output reporting zero
streams, getVideoAspectRatio does not return a NoStreams error: the
unconditional read of Streams[0] is an out-of-range index, a Go runtime
panic. -/
theorem c2_zero_streams_panics :
    getVideoAspectRatio (.output ⟨[]⟩) =
      .crash "runtime error: index out of range [0] with length 0" := rfl

/-- Claim C7: the classifier buckets a ratio by the literal bands
1.70 < r < 1.85 (wide, returned as the string for 16:9) and
0.52 < r < 0.60 (tall, returned as the string for 9:16), anything else
as other; and the four boundary points classify as the claim states:
1.77 wide, 1.86 other, 0.565 tall, 0.50 other. -/
theorem c7_ratio_bands :
    (∀ r : ℚ, 17/10 < r → r < 37/20 → classifyRatio r = "16:9") ∧
    (∀ r : ℚ, 13/25 < r → r < 3/5 → classifyRatio r = "9:16") ∧
    (∀ r : ℚ, ¬(17/10 < r ∧ r < 37/20) → ¬(13/25 < r ∧ r < 3/5) →
      classifyRatio r = "other") ∧
    classifyRatio (177/100) = "16:9" ∧ classifyRatio (186/100) = "other" ∧
    classifyRatio (113/200) = "9:16" ∧ classifyRatio (1/2) = "other" := by
  refine ⟨?_, ?_, ?_, by norm_num [classifyRatio], by norm_num [classifyRatio],
    by norm_num [classifyRatio], by norm_num [classifyRatio]⟩
  · intro r h1 h2
    simp [classifyRatio, h1, h2]
  · intro r h1 h2
    have hno : ¬(17/10 < r ∧ r < 37/20) := by
      rintro ⟨ha, _⟩
      linarith
    simp [classifyRatio, hno, h1, h2]
  · intro r h1 h2
    simp [classifyRatio, h1, h2]

/-- Witness for c7_ratio_bands: the band statements applied at 1.8,
5/9 and 1. -/
theorem c7_ratio_bands_witness :
    classifyRatio (9/5) = "16:9" ∧ classifyRatio (5/9) = "9:16" ∧
      classifyRatio 1 = "other" :=
  ⟨c7_ratio_bands.1 (9/5) (by norm_num) (by norm_num),
   c7_ratio_bands.2.1 (5/9) (by norm_num) (by norm_num),
   c7_ratio_bands.2.2.1 1 (by norm_num) (by norm_num)⟩

/-- Claim C9: a record whose videoURL is unset is returned unchanged with
no error, and no call is made to the signing facility. -/
theorem c9_nil_url_passthrough (sign : String → String → Nat → Except String String)
    (v : Video) (h : v.videoURL = none) :
    dbVideoToSignedVideo sign v = ((v, none), []) := by
  unfold dbVideoToSignedVideo
  rw [h]

/-- Witness for c9_nil_url_passthrough at a concrete record with no
upload. -/
theorem c9_nil_url_passthrough_witness :
    dbVideoToSignedVideo (fun _ _ _ => Except.ok "signed") sampleVideo =
      ((sampleVideo, none), []) :=
  c9_nil_url_passthrough _ sampleVideo rfl

/-- Claim C10: whenever the resolver returns an error (malformed location
string or signing failure), the record it returns alongside the error is
the zero-value record: every field of the input is discarded. -/
theorem c10_error_returns_zero_record
    (sign : String → String → Nat → Except String String)
    (v rv : Video) (e : String) (calls : List (String × String × Nat))
    (h : dbVideoToSignedVideo sign v = ((rv, some e), calls)) :
    rv = Video.zero := by
  unfold dbVideoToSignedVideo at h
  repeat' split at h
  all_goals simp only [Prod.mk.injEq] at h
  · exact absurd h.1.2 (by simp)
  · exact h.1.1.symm
  · exact absurd h.1.2 (by simp)
  · exact h.1.1.symm

/-- Witness for c10_error_returns_zero_record: a record with populated
fields and a descriptor with no comma resolves to the zero record plus an
error. -/
theorem c10_error_returns_zero_record_witness :
    ∃ e calls, dbVideoToSignedVideo (fun _ _ _ => Except.error "boom")
        { sampleVideo with videoURL := some "nocomma" } =
      ((Video.zero, some e), calls) :=
  ⟨"invalid videoURL: nocomma", [],
    by
      have := c10_error_returns_zero_record
        (fun _ _ _ => Except.error "boom")
        { sampleVideo with videoURL := some "nocomma" }
        Video.zero "invalid videoURL: nocomma" [] (by decide)
      decide⟩

/-- Claim C4 counterexample: the descriptor "bucket," splits into two
fields of which the key is empty, yet the resolver accepts it and signs
the empty key instead of returning a malformed-descriptor error. -/
theorem c4_counterexample :
    dbVideoToSignedVideo (fun _ _ _ => Except.ok "signedURL")
        { sampleVideo with videoURL := some "bucket," } =
      (({ sampleVideo with videoURL := some "signedURL" }, none),
        [("bucket", "", 3600)]) := by
  decide

/-- Claim C4 (amended): the resolver splits the persisted string on the
first comma only, commas inside the key staying in the key, and a string
with no comma at all (hence not two fields) yields the invalid-videoURL
error with the zero record; field non-emptiness is not checked. -/
theorem c4_first_comma_split (sign : String → String → Nat → Except String String)
    (v : Video) (url b k : String) :
    (v.videoURL = some (b ++ "," ++ k) → ',' ∉ b.data →
      (dbVideoToSignedVideo sign v).2 = [(b, k, expireTimeSeconds)]) ∧
    (v.videoURL = some url → ',' ∉ url.data →
      dbVideoToSignedVideo sign v =
        ((Video.zero, some ("invalid videoURL: " ++ url)), [])) := by
  constructor
  · intro hv hb
    obtain ⟨i, ca, ua, th, vu, ti, de, us⟩ := v
    cases hv
    simp only [dbVideoToSignedVideo, splitN2_comma b k hb]
    rcases hs : sign b k expireTimeSeconds with e | u <;> simp [hs]
  · intro hv hu
    obtain ⟨i, ca, ua, th, vu, ti, de, us⟩ := v
    cases hv
    simp only [dbVideoToSignedVideo, splitN2_no_comma url hu]

/-- Witness for c4_first_comma_split: a key containing a comma is kept
whole, and a descriptor without a comma is rejected. -/
theorem c4_first_comma_split_witness :
    (dbVideoToSignedVideo (fun _ _ _ => Except.ok "signedURL")
        { sampleVideo with videoURL := some "tubely,landscape/a,b.mp4" }).2 =
      [("tubely", "landscape/a,b.mp4", 3600)] ∧
    dbVideoToSignedVideo (fun _ _ _ => Except.ok "signedURL")
        { sampleVideo with videoURL := some "nocomma" } =
      ((Video.zero, some ("invalid videoURL: " ++ "nocomma")), []) :=
  ⟨(c4_first_comma_split (fun _ _ _ => Except.ok "signedURL")
      { sampleVideo with videoURL := some "tubely,landscape/a,b.mp4" }
      "x" "tubely" "landscape/a,b.mp4").1 (by decide) (by decide),
   (c4_first_comma_split (fun _ _ _ => Except.ok "signedURL")
      { sampleVideo with videoURL := some "nocomma" }
      "nocomma" "x" "y").2 rfl (by decide)⟩

/-- Every handler run leaves an empty disk, and a run whose body exceeded
the ceiling writes nothing to the store: proved by walking every branch of
the embedded handler. -/
theorem handler_cleanup_inv (cfg : ApiConfig) (env : UploadEnv) :
    (handlerUploadVideo cfg env).disk = [] ∧
      (env.bodyTooLarge = true → (handlerUploadVideo cfg env).store = []) := by
  obtain ⟨vid, tok, jwt, uid, dbv, btl, fpo, ffo, pmt, cto, tn, cpo, sko, rh, ff, opo, pr, put⟩ := env
  unfold handlerUploadVideo
  cases vid
  · exact ⟨rfl, fun _ => rfl⟩
  cases tok
  · exact ⟨rfl, fun _ => rfl⟩
  cases jwt
  · exact ⟨rfl, fun _ => rfl⟩
  cases dbv
  · exact ⟨rfl, fun _ => rfl⟩
  rename_i video
  by_cases hu : video.userID = uid
  case neg => exact ⟨by simp [hu], fun _ => by simp [hu]⟩
  cases btl
  rotate_left
  · exact ⟨by simp [hu], fun _ => by simp [hu]⟩
  refine ⟨?_, fun h => nomatch h⟩
  cases fpo
  · simp [hu]
  cases ffo
  · simp [hu]
  cases pmt
  · simp [hu]
  rename_i mt
  by_cases hmt : mt = "video/mp4"
  case neg => simp [hu, hmt]
  cases cto
  · simp [hu, hmt]
  cases cpo
  · simp [hu, hmt, List.erase_cons_head]
  cases sko
  · simp [hu, hmt, List.erase_cons_head]
  cases ff
  rotate_left
  · simp [hu, hmt, List.erase_cons_head, processVideoForFastStart]
  cases opo
  · simp [hu, hmt, List.erase_cons_head, processVideoForFastStart]
  cases pr
  · simp [hu, hmt, List.erase_cons_head, processVideoForFastStart, getVideoAspectRatio]
  · simp [hu, hmt, List.erase_cons_head, processVideoForFastStart, getVideoAspectRatio]
  rename_i o
  obtain ⟨st⟩ := o
  cases st
  · simp [hu, hmt, List.erase_cons_head, processVideoForFastStart, getVideoAspectRatio]
  rename_i s tl
  cases put
  · simp [hu, hmt, List.erase_cons_head, processVideoForFastStart, getVideoAspectRatio]
  simp [hu, hmt, List.erase_cons_head, processVideoForFastStart, getVideoAspectRatio]

/-- Claim C5: on every exit path of the upload handler — success,
validation failure, tool failure, store failure, or even a panic of the
classifier — every local file created during the request (the staged temp
file and the normalized .processing artifact) has been removed by the
time the handler returns: the tracked disk state is empty. -/
theorem c5_no_residual_files (cfg : ApiConfig) (env : UploadEnv) :
    (handlerUploadVideo cfg env).disk = [] :=
  (handler_cleanup_inv cfg env).1

/-- Claim C6: when the body exceeds the size ceiling, nothing is written
to the object store on any path, and an otherwise valid request fails
with status 413. -/
theorem c6_too_large_no_store_write (cfg : ApiConfig) (env : UploadEnv) (v : Video)
    (h : env.bodyTooLarge = true) :
    (handlerUploadVideo cfg env).store = [] ∧
    (env.authOk v →
      (handlerUploadVideo cfg env).outcome =
        .response ⟨413, "File is too large", some "http: request body too large"⟩) := by
  constructor
  · exact (handler_cleanup_inv cfg env).2 h
  · rintro ⟨h1, h2, h3, h4, h5⟩
    simp [handlerUploadVideo, h1, h2, h3, h4, h5, h]

/-- Witness for c6_too_large_no_store_write at a concrete oversized but
otherwise valid request. -/
theorem c6_too_large_no_store_write_witness :
    (handlerUploadVideo sampleCfg { sampleEnv with bodyTooLarge := true }).store = [] ∧
    (handlerUploadVideo sampleCfg { sampleEnv with bodyTooLarge := true }).outcome =
      .response ⟨413, "File is too large", some "http: request body too large"⟩ := by
  have h := c6_too_large_no_store_write sampleCfg
    { sampleEnv with bodyTooLarge := true } sampleVideo rfl
  exact ⟨h.1, h.2 ⟨rfl, rfl, rfl, rfl, rfl⟩⟩

/-- Claim C8: when the remux tool exits nonzero, normalization fails with
an error string that carries the tool stderr text verbatim (as a
contiguous substring), and the otherwise valid request fails with the
normalization-failure response carrying that same error string. -/
theorem c8_normalization_stderr_verbatim (cfg : ApiConfig) (env : UploadEnv)
    (v : Video) (e s : String)
    (hauth : env.authOk v) (hstage : env.stagedOk) (hff : env.ffmpeg = .fail e s) :
    ∃ d, processVideoForFastStart env.tempName env.ffmpeg = .error d ∧
      (∃ pre post, d = pre ++ s ++ post) ∧
      (handlerUploadVideo cfg env).outcome =
        .response ⟨500, "Error processing video for fast start", some d⟩ := by
  obtain ⟨h1, h2, h3, h4, h5⟩ := hauth
  obtain ⟨g1, g2, g3, g4, g5, g6, g7⟩ := hstage
  refine ⟨("ffmpeg error: " ++ e ++ ", details: ") ++ s, ?_,
    ⟨"ffmpeg error: " ++ e ++ ", details: ", "", ?_⟩, ?_⟩
  · rw [hff]; rfl
  · rw [strAppendEmpty]
  · simp [handlerUploadVideo, h1, h2, h3, h4, h5, g1, g2, g3, g4, g5, g6, g7, hff,
      processVideoForFastStart]

/-- Witness for c8_normalization_stderr_verbatim with stderr
"unsupported codec". -/
theorem c8_normalization_stderr_verbatim_witness :
    ∃ d, processVideoForFastStart "/tmp/tubely-upload.mp4"
          (.fail "exit status 1" "unsupported codec") = .error d ∧
      (∃ pre post, d = pre ++ "unsupported codec" ++ post) ∧
      (handlerUploadVideo sampleCfg
          { sampleEnv with ffmpeg := .fail "exit status 1" "unsupported codec" }).outcome =
        .response ⟨500, "Error processing video for fast start", some d⟩ :=
  c8_normalization_stderr_verbatim sampleCfg
    { sampleEnv with ffmpeg := .fail "exit status 1" "unsupported codec" }
    sampleVideo "exit status 1" "unsupported codec"
    ⟨rfl, rfl, rfl, rfl, rfl⟩ ⟨rfl, rfl, rfl, rfl, rfl, rfl, rfl⟩ rfl

/-- Claim C3 counterexample: for a 1920x1080 first stream the
classification is the wide class (the 16:9 string) but the derived object
key written to the store is "landscape/ab.mp4": its first five characters
are not those of "wide/", so the key does not begin with "wide/". -/
theorem c3_counterexample :
    getVideoAspectRatio (.output ⟨[⟨1920, 1080⟩]⟩) = .ok "16:9" ∧
    (handlerUploadVideo sampleCfg sampleEnv).store = [("tubely", "landscape/ab.mp4")] ∧
    ("landscape/ab.mp4").data.take 5 ≠ ("wide/").data.take 5 := by
  have har : getVideoAspectRatio (ProbeResult.output ⟨[⟨1920, 1080⟩]⟩) = .ok "16:9" := by
    simp only [getVideoAspectRatio]
    norm_num [classifyRatio]
  refine ⟨har, ?_, by decide⟩
  simp [handlerUploadVideo, sampleEnv, sampleCfg, sampleVideo, har,
    processVideoForFastStart, aspectRatioDir]

/-- Claim C3 (amended): for any otherwise successful upload whose first
probed stream is 1920x1080, classification yields the wide class (the
16:9 string) and the single object written to the store has a key
beginning with "landscape/" (the name the code gives the wide-class path
segment; the literal "wide/" of the claim does not occur in the code). -/
theorem c3_wide_classification_landscape_key (cfg : ApiConfig) (env : UploadEnv)
    (v : Video) (hauth : env.authOk v) (hstage : env.stagedOk)
    (hff : env.ffmpeg = .ok) (hop : env.openProcessedOk = true)
    (hprobe : env.probe = .output ⟨[⟨1920, 1080⟩]⟩) (hput : env.putObjectOk = true) :
    getVideoAspectRatio env.probe = .ok "16:9" ∧
    ∃ rest, (handlerUploadVideo cfg env).store =
      [(cfg.s3Bucket, "landscape/" ++ rest)] := by
  obtain ⟨h1, h2, h3, h4, h5⟩ := hauth
  obtain ⟨g1, g2, g3, g4, g5, g6, g7⟩ := hstage
  have har : getVideoAspectRatio env.probe = .ok "16:9" := by
    rw [hprobe]
    simp only [getVideoAspectRatio]
    norm_num [classifyRatio]
  refine ⟨har, env.randomHex ++ ".mp4", ?_⟩
  simp [handlerUploadVideo, h1, h2, h3, h4, h5, g1, g2, g3, g4, g5, g6, g7, hff, hop,
    hput, har, processVideoForFastStart, aspectRatioDir, strAppendAssoc]

/-- Witness for c3_wide_classification_landscape_key at the concrete
sample upload. -/
theorem c3_wide_classification_landscape_key_witness :
    getVideoAspectRatio sampleEnv.probe = .ok "16:9" ∧
    ∃ rest, (handlerUploadVideo sampleCfg sampleEnv).store =
      [(sampleCfg.s3Bucket, "landscape/" ++ rest)] :=
  c3_wide_classification_landscape_key sampleCfg sampleEnv sampleVideo
    ⟨rfl, rfl, rfl, rfl, rfl⟩ ⟨rfl, rfl, rfl, rfl, rfl, rfl, rfl⟩ rfl rfl rfl rfl

/-- Claim C1 (code_bug evidence): on a successful upload the handler
persists a full https URL rather than a comma-joined bucket,key
composite: the persisted string splits into one piece, not two, so the
resolver rejects the very record the upload handler just wrote, returning
the zero record and the invalid-videoURL error. -/
theorem c1_persisted_url_not_composite :
    (handlerUploadVideo sampleCfg sampleEnv).dbWrite =
      some { sampleVideo with videoURL := some sampleUploadedURL } ∧
    splitN2 sampleUploadedURL = [sampleUploadedURL] ∧
    (dbVideoToSignedVideo (fun _ _ _ => Except.ok "signed")
        { sampleVideo with videoURL := some sampleUploadedURL }).1 =
      (Video.zero, some ("invalid videoURL: " ++ sampleUploadedURL)) := by
  have har : getVideoAspectRatio (ProbeResult.output ⟨[⟨1920, 1080⟩]⟩) = .ok "16:9" := by
    simp only [getVideoAspectRatio]
    norm_num [classifyRatio]
  refine ⟨?_, by decide, by decide⟩
  simp [handlerUploadVideo, sampleEnv, sampleCfg, sampleVideo, sampleUploadedURL, har,
    processVideoForFastStart, aspectRatioDir]

end Tubely
